import Mathlib

/-!
# Shallow embedding of the breatheBack zone-state logic

This file embeds the restoration-state calculation of the breatheBack
repository: `HeatmapView.calculateState` and `HeatmapView.calculateZoneId`
(src/frontend/heatmapView.js), `ZoneInspector.calculateState` and
`ZoneInspector.calculateProgressInfo` (src/frontend/bottomSheetManager.js),
together with the display colour/message tables of both components.

JavaScript runtime values that can appear in a zone field are modelled by
the inductive type `JSVal`; numbers are modelled as exact integers (the
application only ever stores integer scores), with `JSVal.nan` standing for
the IEEE NaN produced by coercing non-numeric garbage.  Geographic
coordinates are modelled as exact rationals.
-/

namespace BreatheBack

/-- A JavaScript value as it can occur in a zone record field: a finite
(integer) number, `NaN`, a string, `undefined` (also used for an absent
property), `null`, or a boolean. -/
inductive JSVal where
  | num (v : ℤ)
  | nan
  | str (s : String)
  | undef
  | nullv
  | bool (b : Bool)
deriving DecidableEq

/-- JavaScript truthiness: `0`, `NaN`, the empty string, `undefined`,
`null` and `false` are falsy, everything else modelled here is truthy. -/
def truthy : JSVal → Bool
  | .num v => v != 0
  | .nan => false
  | .str s => s != ""
  | .undef => false
  | .nullv => false
  | .bool b => b

/-- Digits-to-integer helper for `jsStringToNumber`. -/
def ofDigits (ds : List Char) : ℤ :=
  ds.foldl (fun a c => a * 10 + ((c.toNat - 48 : ℕ) : ℤ)) 0

/-- Whitespace test used by JavaScript string-to-number trimming. -/
def isWs (c : Char) : Bool :=
  c = ' ' || c = '\t' || c = '\n' || c = '\r'

/-- JavaScript `Number(s)` for a string, restricted to the integer-valued
strings the application can encounter: after trimming whitespace, the empty
string converts to `0`, an optional sign followed by decimal digits converts
to the corresponding integer, and anything else converts to NaN (`none`). -/
def jsStringToNumber (s : String) : Option ℤ :=
  let cs := ((s.toList.dropWhile isWs).reverse.dropWhile isWs).reverse
  match cs with
  | [] => some 0
  | '-' :: rest => if rest ≠ [] ∧ rest.all Char.isDigit then some (-(ofDigits rest)) else none
  | '+' :: rest => if rest ≠ [] ∧ rest.all Char.isDigit then some (ofDigits rest) else none
  | _ => if cs.all Char.isDigit then some (ofDigits cs) else none

/-- JavaScript `ToNumber` coercion; `none` stands for NaN. -/
def toNumber : JSVal → Option ℤ
  | .num v => some v
  | .nan => none
  | .str s => jsStringToNumber s
  | .undef => none
  | .nullv => some 0
  | .bool b => some (if b then 1 else 0)

/-- JavaScript `ToString` on the primitive values modelled here. -/
def jsToString : JSVal → String
  | .num v => toString v
  | .nan => "NaN"
  | .str s => s
  | .undef => "undefined"
  | .nullv => "null"
  | .bool b => if b then "true" else "false"

/-- Whether a value is a string (drives the concatenation branch of `+`). -/
def isStr : JSVal → Bool
  | .str _ => true
  | _ => false

/-- JavaScript binary `+`: string concatenation when either operand is a
string, numeric addition otherwise (NaN-propagating). -/
def jsAdd (a b : JSVal) : JSVal :=
  if isStr a || isStr b then .str (jsToString a ++ jsToString b)
  else
    match toNumber a, toNumber b with
    | some x, some y => .num (x + y)
    | _, _ => .nan

/-- JavaScript binary `-`: both operands are coerced to numbers;
any NaN operand makes the result NaN. -/
def jsSub (a b : JSVal) : JSVal :=
  match toNumber a, toNumber b with
  | some x, some y => .num (x - y)
  | _, _ => .nan

/-- JavaScript `a > t` for an integer threshold `t`: false whenever the
left operand coerces to NaN. -/
def jsGt (a : JSVal) (t : ℤ) : Bool :=
  match toNumber a with
  | some x => t < x
  | none => false

/-- JavaScript `Math.max(0, v)`: NaN-propagating maximum with zero. -/
def jsMaxZero (v : JSVal) : JSVal :=
  match toNumber v with
  | some x => .num (max 0 x)
  | none => .nan

/-- A zone record as read by the frontend: each of the four scores may be
present under a snake_case key (API form) or a camelCase key, and either
may be absent (`undef`) or hold a malformed value. -/
structure Zone where
  vape_debt : JSVal
  vapeDebt : JSVal
  vape_restore : JSVal
  vapeRestore : JSVal
  smoke_debt : JSVal
  smokeDebt : JSVal
  smoke_restore : JSVal
  smokeRestore : JSVal
deriving DecidableEq

/-- The JavaScript idiom `a || b || 0` used for every field read in
`calculateState`: the first truthy operand, else `0`. -/
def orDefault (a b : JSVal) : JSVal :=
  if truthy a then a else if truthy b then b else .num 0

/-- The debt/restore pair selected by `calculateState` for a map type;
this is the `if (mapType === ...)` selection block shared verbatim by
`HeatmapView.calculateState`, `ZoneInspector.calculateState` and
`ZoneInspector.calculateProgressInfo`. -/
def selectScores (zone : Zone) (mapType : String) : JSVal × JSVal :=
  if mapType = "vape" then
    (orDefault zone.vape_debt zone.vapeDebt,
     orDefault zone.vape_restore zone.vapeRestore)
  else if mapType = "smoke" then
    (orDefault zone.smoke_debt zone.smokeDebt,
     orDefault zone.smoke_restore zone.smokeRestore)
  else if mapType = "all" then
    (jsAdd (orDefault zone.vape_debt zone.vapeDebt)
           (orDefault zone.smoke_debt zone.smokeDebt),
     jsAdd (orDefault zone.vape_restore zone.vapeRestore)
           (orDefault zone.smoke_restore zone.smokeRestore))
  else
    (orDefault zone.vape_debt zone.vapeDebt,
     orDefault zone.vape_restore zone.vapeRestore)

namespace HeatmapView

/-- `this.RECOVERED_THRESHOLD` set in the `HeatmapView` constructor. -/
def RECOVERED_THRESHOLD : ℤ := 20

/-- `this.HEALING_THRESHOLD` set in the `HeatmapView` constructor. -/
def HEALING_THRESHOLD : ℤ := -20

/-- `this.stateColors` lookup table set in the `HeatmapView` constructor. -/
def stateColors (state : String) : Option String :=
  if state = "needs_restoration" then some "#F4D03F"
  else if state = "healing" then some "#52BE80"
  else if state = "recovered" then some "#5DADE2"
  else none

/-- `this.stateMessages` lookup table set in the `HeatmapView` constructor. -/
def stateMessages (state : String) : Option String :=
  if state = "needs_restoration" then some "This space needs care"
  else if state = "healing" then some "This space is healing"
  else if state = "recovered" then some "This space has recovered"
  else none

/-- `HeatmapView.calculateState(zone, mapType)` from
src/frontend/heatmapView.js: select the debt/restore pair for the map type
(defaulting to the vape pair on an unrecognised type), form the net score
`restore - debt`, and classify it against the two strict thresholds. -/
def calculateState (zone : Zone) (mapType : String) : String :=
  let dr := selectScores zone mapType
  let netScore := jsSub dr.2 dr.1
  if jsGt netScore RECOVERED_THRESHOLD then "recovered"
  else if jsGt netScore HEALING_THRESHOLD then "healing"
  else "needs_restoration"

/-- `ZONE_GRID_SIZE` from `HeatmapView.calculateZoneId`. -/
def ZONE_GRID_SIZE : ℚ := 0.01

/-- `HeatmapView.calculateZoneId(lat, lng)` from src/frontend/heatmapView.js:
quantize each coordinate with `Math.floor(x / ZONE_GRID_SIZE)` and build the
identifier string; coordinates are modelled as exact rationals. -/
def calculateZoneId (lat lng : ℚ) : String :=
  let latGrid : ℤ := ⌊lat / ZONE_GRID_SIZE⌋
  let lngGrid : ℤ := ⌊lng / ZONE_GRID_SIZE⌋
  "zone_" ++ toString latGrid ++ "_" ++ toString lngGrid

end HeatmapView

namespace ZoneInspector

/-- `this.stateColors` lookup table set in the `ZoneInspector` constructor. -/
def stateColors (state : String) : Option String :=
  if state = "needs_restoration" then some "#F4D03F"
  else if state = "healing" then some "#52BE80"
  else if state = "recovered" then some "#5DADE2"
  else none

/-- `this.stateMessages` lookup table set in the `ZoneInspector` constructor. -/
def stateMessages (state : String) : Option String :=
  if state = "needs_restoration" then some "This space needs care"
  else if state = "healing" then some "This space is healing"
  else if state = "recovered" then some "This space has recovered"
  else none

/-- `ZoneInspector.calculateState(zoneData, mapType)` from
src/frontend/bottomSheetManager.js: identical logic to the heatmap copy,
with the two thresholds as local constants `20` and `-20`. -/
def calculateState (zoneData : Zone) (mapType : String) : String :=
  let RECOVERED_THRESHOLD : ℤ := 20
  let HEALING_THRESHOLD : ℤ := -20
  let dr := selectScores zoneData mapType
  let netScore := jsSub dr.2 dr.1
  if jsGt netScore RECOVERED_THRESHOLD then "recovered"
  else if jsGt netScore HEALING_THRESHOLD then "healing"
  else "needs_restoration"

/-- The point deltas computed by
`ZoneInspector.calculateProgressInfo(zoneData, mapType, currentState)`
(src/frontend/bottomSheetManager.js): the pair
(`pointsToHealing`, `pointsToRecovered`) that the function splices into its
progress HTML, with `none` for a delta the branch does not compute.  The
score selection block and the net score are verbatim those of
`calculateState`; in the `needs_restoration` branch both deltas are
`Math.max(0, THRESHOLD - netScore + 1)`, in the `healing` branch only the
recovered delta is computed, and the `recovered` branch (like an
unrecognised state) computes none.  The surrounding HTML markup is elided. -/
def calculateProgressInfo (zoneData : Zone) (mapType currentState : String) :
    Option JSVal × Option JSVal :=
  let RECOVERED_THRESHOLD : ℤ := 20
  let HEALING_THRESHOLD : ℤ := -20
  let dr := selectScores zoneData mapType
  let netScore := jsSub dr.2 dr.1
  if currentState = "needs_restoration" then
    (some (jsMaxZero (jsAdd (jsSub (.num HEALING_THRESHOLD) netScore) (.num 1))),
     some (jsMaxZero (jsAdd (jsSub (.num RECOVERED_THRESHOLD) netScore) (.num 1))))
  else if currentState = "healing" then
    (none,
     some (jsMaxZero (jsAdd (jsSub (.num RECOVERED_THRESHOLD) netScore) (.num 1))))
  else
    (none, none)

end ZoneInspector

/-! ## Derived notions used to state the verified properties -/

/-- A zone carrying the four integer scores of the spec data model under
their camelCase names, with the snake_case keys absent. -/
def intZone (vd vr sd sr : ℤ) : Zone :=
  ⟨.undef, .num vd, .undef, .num vr, .undef, .num sd, .undef, .num sr⟩

/-- The net score `restore - debt` of the pair a view mode selects from the
four integer scores (unknown modes fall back to the vape pair). -/
def selectedNet (vd vr sd sr : ℤ) (m : String) : ℤ :=
  if m = "vape" then vr - vd
  else if m = "smoke" then sr - sd
  else if m = "all" then (vr + sr) - (vd + sd)
  else vr - vd

/-- Rank of a restoration state in the order
`needs_restoration < healing < recovered`. -/
def stateRank (s : String) : ℕ :=
  if s = "recovered" then 2 else if s = "healing" then 1 else 0

/-- Replace an absent (`undefined`) field value by the number `0`. -/
def fillAbsent (v : JSVal) : JSVal :=
  if v = .undef then .num 0 else v

/-- Replace every absent field of a zone by the number `0`. -/
def zeroAbsent (z : Zone) : Zone :=
  ⟨fillAbsent z.vape_debt, fillAbsent z.vapeDebt,
   fillAbsent z.vape_restore, fillAbsent z.vapeRestore,
   fillAbsent z.smoke_debt, fillAbsent z.smokeDebt,
   fillAbsent z.smoke_restore, fillAbsent z.smokeRestore⟩

/-- A zone whose API-form vape restore field holds the non-numeric,
truthy string `"abc"`. -/
def zStr : Zone :=
  ⟨.undef, .undef, .str "abc", .undef, .undef, .undef, .undef, .undef⟩

/-- `zStr` with the malformed field replaced by the number `0`. -/
def zStrZero : Zone :=
  ⟨.undef, .undef, .num 0, .undef, .undef, .undef, .undef, .undef⟩

/-- A zone whose API-form vape debt field holds the falsy value `null`. -/
def zNull : Zone :=
  ⟨.nullv, .num 7, .undef, .num 3, .undef, .undef, .undef, .undef⟩

/-! ## Helper lemmas -/

lemma truthy_num_zero : truthy (.num 0) = false := rfl

lemma orDefault_undef_num (v : ℤ) : orDefault .undef (.num v) = .num v := by
  by_cases h : v = 0 <;> simp [orDefault, truthy, h]

lemma orDefault_num_num (s c : ℤ) :
    orDefault (.num s) (.num c) = .num (if s = 0 then c else s) := by
  by_cases hs : s = 0 <;> by_cases hc : c = 0 <;> simp [orDefault, truthy, hs, hc]

lemma jsAdd_num (a b : ℤ) : jsAdd (.num a) (.num b) = .num (a + b) := rfl

lemma jsSub_num (a b : ℤ) : jsSub (.num a) (.num b) = .num (a - b) := rfl

lemma orDefault_falsy_left (a b : JSVal) (h : truthy a = false) :
    orDefault (.num 0) b = orDefault a b := by
  simp [orDefault, h, truthy_num_zero]

lemma orDefault_falsy_right (a b : JSVal) (h : truthy b = false) :
    orDefault a (.num 0) = orDefault a b := by
  simp [orDefault, h, truthy_num_zero]

lemma orDefault_fillAbsent (a b : JSVal) :
    orDefault (fillAbsent a) (fillAbsent b) = orDefault a b := by
  by_cases ha : a = .undef <;> by_cases hb : b = .undef <;>
    simp [fillAbsent, ha, hb, orDefault, truthy]

/-- `selectScores` depends on a zone only through the four `a || b || 0`
field reads. -/
lemma selectScores_congr (z z' : Zone) (m : String)
    (h1 : orDefault z.vape_debt z.vapeDebt = orDefault z'.vape_debt z'.vapeDebt)
    (h2 : orDefault z.vape_restore z.vapeRestore =
      orDefault z'.vape_restore z'.vapeRestore)
    (h3 : orDefault z.smoke_debt z.smokeDebt = orDefault z'.smoke_debt z'.smokeDebt)
    (h4 : orDefault z.smoke_restore z.smokeRestore =
      orDefault z'.smoke_restore z'.smokeRestore) :
    selectScores z m = selectScores z' m := by
  unfold selectScores
  rw [h1, h2, h3, h4]

lemma calculateState_congr (z z' : Zone) (m : String)
    (h1 : orDefault z.vape_debt z.vapeDebt = orDefault z'.vape_debt z'.vapeDebt)
    (h2 : orDefault z.vape_restore z.vapeRestore =
      orDefault z'.vape_restore z'.vapeRestore)
    (h3 : orDefault z.smoke_debt z.smokeDebt = orDefault z'.smoke_debt z'.smokeDebt)
    (h4 : orDefault z.smoke_restore z.smokeRestore =
      orDefault z'.smoke_restore z'.smokeRestore) :
    HeatmapView.calculateState z m = HeatmapView.calculateState z' m := by
  unfold HeatmapView.calculateState
  rw [selectScores_congr z z' m h1 h2 h3 h4]

lemma selectScores_intZone (vd vr sd sr : ℤ) (m : String) :
    selectScores (intZone vd vr sd sr) m =
      (if m = "vape" then ((.num vd : JSVal), (.num vr : JSVal))
       else if m = "smoke" then (.num sd, .num sr)
       else if m = "all" then (.num (vd + sd), .num (vr + sr))
       else (.num vd, .num vr)) := by
  by_cases h1 : m = "vape" <;> by_cases h2 : m = "smoke" <;> by_cases h3 : m = "all" <;>
    simp [selectScores, intZone, orDefault_undef_num, jsAdd_num, h1, h2, h3]

/-- Whenever the two selected operands are genuine numbers, the heatmap
state function is the three-way classification of `restore - debt`. -/
lemma calculateState_of_numbers (z : Zone) (m : String) {d r : ℤ}
    (hd : toNumber (selectScores z m).1 = some d)
    (hr : toNumber (selectScores z m).2 = some r) :
    HeatmapView.calculateState z m =
      (if 20 < r - d then "recovered"
       else if -20 < r - d then "healing" else "needs_restoration") := by
  unfold HeatmapView.calculateState
  simp only [jsSub, hd, hr]
  simp [jsGt, toNumber, HeatmapView.RECOVERED_THRESHOLD, HeatmapView.HEALING_THRESHOLD]

lemma selectScores_zeroAbsent (z : Zone) (m : String) :
    selectScores (zeroAbsent z) m = selectScores z m := by
  unfold selectScores zeroAbsent
  simp [orDefault_fillAbsent]

lemma grid_floor_37_7749 :
    ⌊(377749 / 10000 : ℚ) / HeatmapView.ZONE_GRID_SIZE⌋ = 3777 := by
  rw [show (377749 / 10000 : ℚ) / HeatmapView.ZONE_GRID_SIZE = 377749 / 100 by
      norm_num [HeatmapView.ZONE_GRID_SIZE],
    Int.floor_eq_iff]
  norm_num

lemma grid_floor_37_7759 :
    ⌊(377759 / 10000 : ℚ) / HeatmapView.ZONE_GRID_SIZE⌋ = 3777 := by
  rw [show (377759 / 10000 : ℚ) / HeatmapView.ZONE_GRID_SIZE = 377759 / 100 by
      norm_num [HeatmapView.ZONE_GRID_SIZE],
    Int.floor_eq_iff]
  norm_num

lemma grid_floor_neg_122_4194 :
    ⌊(-1224194 / 10000 : ℚ) / HeatmapView.ZONE_GRID_SIZE⌋ = -12242 := by
  rw [show (-1224194 / 10000 : ℚ) / HeatmapView.ZONE_GRID_SIZE = -1224194 / 100 by
      norm_num [HeatmapView.ZONE_GRID_SIZE],
    Int.floor_eq_iff]
  norm_num

lemma grid_floor_neg_122_4199 :
    ⌊(-1224199 / 10000 : ℚ) / HeatmapView.ZONE_GRID_SIZE⌋ = -12242 := by
  rw [show (-1224199 / 10000 : ℚ) / HeatmapView.ZONE_GRID_SIZE = -1224199 / 100 by
      norm_num [HeatmapView.ZONE_GRID_SIZE],
    Int.floor_eq_iff]
  norm_num

/-! ## Verified properties -/

/-- C1: for every zone whose selected debt/restore pair consists of genuine
numbers and every view mode in {vape, smoke, all}, with net = restore - debt,
`calculateState` returns `recovered` exactly when net > 20, `healing` exactly
when -20 < net ≤ 20, and `needs_restoration` exactly when net ≤ -20; both
comparisons are strict. -/
theorem calculateState_threshold_trichotomy (z : Zone) (m : String) (d r : ℤ)
    (hm : m = "vape" ∨ m = "smoke" ∨ m = "all")
    (hd : toNumber (selectScores z m).1 = some d)
    (hr : toNumber (selectScores z m).2 = some r) :
    (HeatmapView.calculateState z m = "recovered" ↔ 20 < r - d) ∧
    (HeatmapView.calculateState z m = "healing" ↔ -20 < r - d ∧ r - d ≤ 20) ∧
    (HeatmapView.calculateState z m = "needs_restoration" ↔ r - d ≤ -20) := by
  rw [calculateState_of_numbers z m hd hr]
  by_cases c1 : (20:ℤ) < r - d
  · simp [c1]; omega
  · by_cases c2 : (-20:ℤ) < r - d <;> simp [c1, c2] <;> omega

/-- Witness for C1: at net = 21 the trichotomy holds concretely. -/
theorem calculateState_threshold_trichotomy_witness :
    (HeatmapView.calculateState (intZone 0 21 0 0) "vape" = "recovered" ↔ 20 < (21:ℤ) - 0) ∧
    (HeatmapView.calculateState (intZone 0 21 0 0) "vape" = "healing" ↔
      -20 < (21:ℤ) - 0 ∧ (21:ℤ) - 0 ≤ 20) ∧
    (HeatmapView.calculateState (intZone 0 21 0 0) "vape" = "needs_restoration" ↔
      (21:ℤ) - 0 ≤ -20) :=
  calculateState_threshold_trichotomy (intZone 0 21 0 0) "vape" 0 21
    (Or.inl rfl) (by decide) (by decide)

/-- C2: `calculateState` selects (vapeDebt, vapeRestore) for mode `vape`,
(smokeDebt, smokeRestore) for `smoke`, and the componentwise sums for `all`;
in particular the zone {vapeDebt:5, vapeRestore:30, smokeDebt:5,
smokeRestore:0} in mode `all` has net 20 and state `healing`. -/
theorem calculateState_viewmode_selection (vd vr sd sr : ℤ) :
    selectScores (intZone vd vr sd sr) "vape" = (.num vd, .num vr) ∧
    selectScores (intZone vd vr sd sr) "smoke" = (.num sd, .num sr) ∧
    selectScores (intZone vd vr sd sr) "all" = (.num (vd + sd), .num (vr + sr)) ∧
    HeatmapView.calculateState (intZone vd vr sd sr) "all" =
      HeatmapView.calculateState (intZone (vd + sd) (vr + sr) 0 0) "vape" ∧
    HeatmapView.calculateState (intZone 5 30 5 0) "all" = "healing" := by
  refine ⟨by simp [selectScores_intZone], by simp [selectScores_intZone],
    by simp [selectScores_intZone], ?_, by decide⟩
  rw [calculateState_of_numbers (intZone vd vr sd sr) "all"
      (d := vd + sd) (r := vr + sr) (by simp [selectScores_intZone, toNumber])
      (by simp [selectScores_intZone, toNumber]),
    calculateState_of_numbers (intZone (vd + sd) (vr + sr) 0 0) "vape"
      (d := vd + sd) (r := vr + sr) (by simp [selectScores_intZone, toNumber])
      (by simp [selectScores_intZone, toNumber])]

/-- C3: `calculateProgressInfo` computes, for state `needs_restoration`, both
toHealing = max(0, -20 - net + 1) and toRecovered = max(0, 20 - net + 1); for
`healing` only toRecovered; for `recovered` no deltas; and at net = -25 in
`needs_restoration` the deltas are 6 and 46. -/
theorem calculateProgressInfo_point_deltas (z : Zone) (m : String) (d r : ℤ)
    (hd : toNumber (selectScores z m).1 = some d)
    (hr : toNumber (selectScores z m).2 = some r) :
    (ZoneInspector.calculateProgressInfo z m "needs_restoration" =
      (some (.num (max 0 (-20 - (r - d) + 1))), some (.num (max 0 (20 - (r - d) + 1))))) ∧
    (ZoneInspector.calculateProgressInfo z m "healing" =
      (none, some (.num (max 0 (20 - (r - d) + 1))))) ∧
    (ZoneInspector.calculateProgressInfo z m "recovered" = (none, none)) ∧
    ZoneInspector.calculateProgressInfo (intZone 25 0 0 0) "vape" "needs_restoration" =
      (some (.num 6), some (.num 46)) := by
  refine ⟨?_, ?_, ?_, by decide⟩ <;>
    · unfold ZoneInspector.calculateProgressInfo
      simp only [jsSub, hd, hr]
      simp [jsAdd, isStr, toNumber, jsMaxZero, jsSub]

/-- Witness for C3: the delta formulas evaluated at the zone with vape
debt 25 and vape restore 0, i.e. net = -25. -/
theorem calculateProgressInfo_point_deltas_witness :
    (ZoneInspector.calculateProgressInfo (intZone 25 0 0 0) "vape" "needs_restoration" =
      (some (.num (max 0 (-20 - ((0:ℤ) - 25) + 1))),
       some (.num (max 0 (20 - ((0:ℤ) - 25) + 1))))) ∧
    (ZoneInspector.calculateProgressInfo (intZone 25 0 0 0) "vape" "healing" =
      (none, some (.num (max 0 (20 - ((0:ℤ) - 25) + 1))))) ∧
    (ZoneInspector.calculateProgressInfo (intZone 25 0 0 0) "vape" "recovered" =
      (none, none)) ∧
    ZoneInspector.calculateProgressInfo (intZone 25 0 0 0) "vape" "needs_restoration" =
      (some (.num 6), some (.num 46)) :=
  calculateProgressInfo_point_deltas (intZone 25 0 0 0) "vape" 25 0 (by decide) (by decide)

/-- C4: `calculateZoneId` is exactly `"zone_" ++ ⌊lat/0.01⌋ ++ "_" ++
⌊lng/0.01⌋` (floor, not round or truncation toward zero); the coordinates
(37.7749, -122.4194) give `"zone_3777_-12242"`; and any two points whose
coordinates have the same floors (the same 0.01-degree cell) get identical
zone IDs. -/
theorem calculateZoneId_floor_grid :
    (∀ lat lng : ℚ, HeatmapView.calculateZoneId lat lng =
      "zone_" ++ toString (⌊lat / (1/100 : ℚ)⌋ : ℤ) ++ "_" ++
        toString (⌊lng / (1/100 : ℚ)⌋ : ℤ)) ∧
    HeatmapView.calculateZoneId (377749 / 10000 : ℚ) (-1224194 / 10000 : ℚ) =
      "zone_3777_-12242" ∧
    (∀ lat1 lng1 lat2 lng2 : ℚ,
      ⌊lat1 / HeatmapView.ZONE_GRID_SIZE⌋ = ⌊lat2 / HeatmapView.ZONE_GRID_SIZE⌋ →
      ⌊lng1 / HeatmapView.ZONE_GRID_SIZE⌋ = ⌊lng2 / HeatmapView.ZONE_GRID_SIZE⌋ →
      HeatmapView.calculateZoneId lat1 lng1 = HeatmapView.calculateZoneId lat2 lng2) := by
  have hz : HeatmapView.ZONE_GRID_SIZE = 1/100 := by norm_num [HeatmapView.ZONE_GRID_SIZE]
  refine ⟨fun lat lng => by unfold HeatmapView.calculateZoneId; rw [hz], ?_,
    fun lat1 lng1 lat2 lng2 h1 h2 => by
      unfold HeatmapView.calculateZoneId; rw [h1, h2]⟩
  unfold HeatmapView.calculateZoneId
  rw [grid_floor_37_7749, grid_floor_neg_122_4194]
  rfl

/-- Witness for C4: two points 0.001 and 0.0005 degrees apart inside the
same 0.01-degree cell receive the same zone ID. -/
theorem calculateZoneId_floor_grid_witness :
    HeatmapView.calculateZoneId (377749 / 10000 : ℚ) (-1224194 / 10000 : ℚ) =
      HeatmapView.calculateZoneId (377759 / 10000 : ℚ) (-1224199 / 10000 : ℚ) :=
  calculateZoneId_floor_grid.2.2 _ _ _ _
    (grid_floor_37_7749.trans grid_floor_37_7759.symm)
    (grid_floor_neg_122_4194.trans grid_floor_neg_122_4199.symm)

/-- C5: with the view mode fixed and the selected debt unchanged, increasing
the selected restore value never lowers the state in the order
needs_restoration < healing < recovered. -/
theorem calculateState_monotone_in_restore (z z' : Zone) (m : String) (r r' : ℤ)
    (hdebt : (selectScores z m).1 = (selectScores z' m).1)
    (hr : toNumber (selectScores z m).2 = some r)
    (hr' : toNumber (selectScores z' m).2 = some r')
    (hle : r ≤ r') :
    stateRank (HeatmapView.calculateState z m) ≤
      stateRank (HeatmapView.calculateState z' m) := by
  rcases hd : toNumber (selectScores z m).1 with _ | d
  · have hd2 : toNumber (selectScores z' m).1 = none := by rw [← hdebt]; exact hd
    unfold HeatmapView.calculateState
    simp only [jsSub, hd, hd2, hr, hr']
    simp [jsGt, stateRank]
  · have hd2 : toNumber (selectScores z' m).1 = some d := by rw [← hdebt]; exact hd
    rw [calculateState_of_numbers z m hd hr, calculateState_of_numbers z' m hd2 hr']
    by_cases c1 : (20:ℤ) < r - d <;> by_cases c2 : (20:ℤ) < r' - d <;>
      by_cases c3 : (-20:ℤ) < r - d <;> by_cases c4 : (-20:ℤ) < r' - d <;>
        simp [c1, c2, c3, c4, stateRank] <;> omega

/-- Witness for C5: raising vape restore from 0 to 30 with vape debt 0 does
not lower the state rank. -/
theorem calculateState_monotone_in_restore_witness :
    stateRank (HeatmapView.calculateState (intZone 0 0 0 0) "vape") ≤
      stateRank (HeatmapView.calculateState (intZone 0 30 0 0) "vape") :=
  calculateState_monotone_in_restore (intZone 0 0 0 0) (intZone 0 30 0 0) "vape" 0 30
    (by decide) (by decide) (by decide) (by decide)

/-- C6: for every zone (any subset of fields absent, any malformed values)
and every view mode string, `calculateState` returns one of the three
enumerated states, and replacing every absent field by 0 does not change the
result (absent fields are treated as 0). -/
theorem calculateState_total_and_defaults_absent (z : Zone) (m : String) :
    (HeatmapView.calculateState z m = "needs_restoration" ∨
     HeatmapView.calculateState z m = "healing" ∨
     HeatmapView.calculateState z m = "recovered") ∧
    HeatmapView.calculateState (zeroAbsent z) m = HeatmapView.calculateState z m := by
  constructor
  · unfold HeatmapView.calculateState
    cases hb1 : jsGt (jsSub (selectScores z m).2 (selectScores z m).1)
        HeatmapView.RECOVERED_THRESHOLD <;>
      cases hb2 : jsGt (jsSub (selectScores z m).2 (selectScores z m).1)
          HeatmapView.HEALING_THRESHOLD <;>
        simp [hb1, hb2]
  · unfold HeatmapView.calculateState
    rw [selectScores_zeroAbsent]

/-- C7: for any view-mode string other than vape, smoke or all,
`calculateState` silently behaves exactly as in vape mode. -/
theorem calculateState_unknown_mode_fallback (z : Zone) (m : String)
    (h1 : m ≠ "vape") (h2 : m ≠ "smoke") (h3 : m ≠ "all") :
    HeatmapView.calculateState z m = HeatmapView.calculateState z "vape" := by
  unfold HeatmapView.calculateState
  simp [selectScores, h1, h2, h3]

/-- Witness for C7: the unknown mode "pollen" gives the vape-mode state. -/
theorem calculateState_unknown_mode_fallback_witness :
    HeatmapView.calculateState (intZone 1 2 3 4) "pollen" =
      HeatmapView.calculateState (intZone 1 2 3 4) "vape" :=
  calculateState_unknown_mode_fallback (intZone 1 2 3 4) "pollen"
    (by decide) (by decide) (by decide)

/-- C8 counterexample: the zone whose vape_restore holds the truthy
non-numeric string "abc" is NOT treated as having that field 0: the code
returns `needs_restoration` (the NaN net score fails both strict
comparisons), while the zone with the field replaced by 0 gets `healing`. -/
theorem malformed_field_not_always_zeroed :
    HeatmapView.calculateState zStr "vape" ≠ HeatmapView.calculateState zStrZero "vape" ∧
    HeatmapView.calculateState zStr "vape" = "needs_restoration" ∧
    HeatmapView.calculateState zStrZero "vape" = "healing" := by decide

/-- C8 amended: a falsy malformed field value (undefined, null, NaN, empty
string, false, 0) is treated as 0 — replacing it by the number 0 leaves the
state unchanged, for each of the eight fields — while a value whose coercion
makes the net score NaN yields the state `needs_restoration`; no error is
signalled in either case. -/
theorem malformed_falsy_field_coerces_to_zero :
    (∀ (z : Zone) (m : String), truthy z.vape_debt = false →
      HeatmapView.calculateState { z with vape_debt := .num 0 } m =
        HeatmapView.calculateState z m) ∧
    (∀ (z : Zone) (m : String), truthy z.vapeDebt = false →
      HeatmapView.calculateState { z with vapeDebt := .num 0 } m =
        HeatmapView.calculateState z m) ∧
    (∀ (z : Zone) (m : String), truthy z.vape_restore = false →
      HeatmapView.calculateState { z with vape_restore := .num 0 } m =
        HeatmapView.calculateState z m) ∧
    (∀ (z : Zone) (m : String), truthy z.vapeRestore = false →
      HeatmapView.calculateState { z with vapeRestore := .num 0 } m =
        HeatmapView.calculateState z m) ∧
    (∀ (z : Zone) (m : String), truthy z.smoke_debt = false →
      HeatmapView.calculateState { z with smoke_debt := .num 0 } m =
        HeatmapView.calculateState z m) ∧
    (∀ (z : Zone) (m : String), truthy z.smokeDebt = false →
      HeatmapView.calculateState { z with smokeDebt := .num 0 } m =
        HeatmapView.calculateState z m) ∧
    (∀ (z : Zone) (m : String), truthy z.smoke_restore = false →
      HeatmapView.calculateState { z with smoke_restore := .num 0 } m =
        HeatmapView.calculateState z m) ∧
    (∀ (z : Zone) (m : String), truthy z.smokeRestore = false →
      HeatmapView.calculateState { z with smokeRestore := .num 0 } m =
        HeatmapView.calculateState z m) ∧
    (∀ (z : Zone) (m : String),
      toNumber (jsSub (selectScores z m).2 (selectScores z m).1) = none →
      HeatmapView.calculateState z m = "needs_restoration") := by
  refine ⟨fun z m h => calculateState_congr _ _ _ (orDefault_falsy_left _ _ h) rfl rfl rfl,
    fun z m h => calculateState_congr _ _ _ (orDefault_falsy_right _ _ h) rfl rfl rfl,
    fun z m h => calculateState_congr _ _ _ rfl (orDefault_falsy_left _ _ h) rfl rfl,
    fun z m h => calculateState_congr _ _ _ rfl (orDefault_falsy_right _ _ h) rfl rfl,
    fun z m h => calculateState_congr _ _ _ rfl rfl (orDefault_falsy_left _ _ h) rfl,
    fun z m h => calculateState_congr _ _ _ rfl rfl (orDefault_falsy_right _ _ h) rfl,
    fun z m h => calculateState_congr _ _ _ rfl rfl rfl (orDefault_falsy_left _ _ h),
    fun z m h => calculateState_congr _ _ _ rfl rfl rfl (orDefault_falsy_right _ _ h),
    fun z m h => ?_⟩
  unfold HeatmapView.calculateState
  simp [jsGt, h]

/-- Witness for C8 amended: a `null` vape debt is equivalent to a zero one,
and the "abc" restore zone lands in `needs_restoration`. -/
theorem malformed_falsy_field_coerces_to_zero_witness :
    HeatmapView.calculateState { zNull with vape_debt := .num 0 } "vape" =
      HeatmapView.calculateState zNull "vape" ∧
    HeatmapView.calculateState zStr "vape" = "needs_restoration" :=
  ⟨malformed_falsy_field_coerces_to_zero.1 zNull "vape" (by decide),
   malformed_falsy_field_coerces_to_zero.2.2.2.2.2.2.2.2 zStr "vape" (by decide)⟩

/-- C9: the `HeatmapView` and `ZoneInspector` copies of `calculateState`
agree on every zone and map type, their colour and message tables agree on
every state string, and the tables hold exactly the three documented
colour/message pairs. -/
theorem replica_equivalence :
    (∀ (z : Zone) (m : String),
      HeatmapView.calculateState z m = ZoneInspector.calculateState z m) ∧
    (∀ s : String, HeatmapView.stateColors s = ZoneInspector.stateColors s) ∧
    (∀ s : String, HeatmapView.stateMessages s = ZoneInspector.stateMessages s) ∧
    HeatmapView.stateColors "needs_restoration" = some "#F4D03F" ∧
    HeatmapView.stateColors "healing" = some "#52BE80" ∧
    HeatmapView.stateColors "recovered" = some "#5DADE2" ∧
    HeatmapView.stateMessages "needs_restoration" = some "This space needs care" ∧
    HeatmapView.stateMessages "healing" = some "This space is healing" ∧
    HeatmapView.stateMessages "recovered" = some "This space has recovered" :=
  ⟨fun _ _ => rfl, fun _ => rfl, fun _ => rfl, by decide, by decide, by decide,
   by decide, by decide, by decide⟩

/-- C10: each field read accepts the snake_case key when truthy (nonzero),
else the camelCase key, else 0; consequently in vape mode a zone carrying
both key forms behaves like the zone holding the value the precedence rule
picks, and the concrete zone with vape_debt = 0, vapeDebt = 7 is treated as
having vape debt 7. -/
theorem field_name_precedence :
    (∀ s c : ℤ, orDefault (.num s) (.num c) = .num (if s = 0 then c else s)) ∧
    (∀ s c r : ℤ,
      HeatmapView.calculateState
          ⟨.num s, .num c, .undef, .num r, .undef, .undef, .undef, .undef⟩ "vape" =
        HeatmapView.calculateState (intZone (if s = 0 then c else s) r 0 0) "vape") ∧
    (∀ s c dd : ℤ,
      HeatmapView.calculateState
          ⟨.undef, .num dd, .num s, .num c, .undef, .undef, .undef, .undef⟩ "vape" =
        HeatmapView.calculateState (intZone dd (if s = 0 then c else s) 0 0) "vape") ∧
    HeatmapView.calculateState
        ⟨.num 0, .num 7, .undef, .undef, .undef, .undef, .undef, .undef⟩ "vape" =
      HeatmapView.calculateState (intZone 7 0 0 0) "vape" ∧
    HeatmapView.calculateState
        ⟨.num 0, .num 7, .undef, .undef, .undef, .undef, .undef, .undef⟩ "vape" =
      "healing" := by
  refine ⟨orDefault_num_num, fun s c r => ?_, fun s c dd => ?_, by decide, by decide⟩ <;>
    · unfold HeatmapView.calculateState
      simp [selectScores, intZone, orDefault_num_num, orDefault_undef_num]

end BreatheBack
